import Mathlib

/-!
# Verification of the aicloude server (src/server.js)

Shallow embedding of the Express + Firebase backend in `src/server.js`.

The server keeps no in-process data of its own: every handler is a
validate-then-call-Firebase sequence.  We model the external world
(Firebase Auth accounts, the Firestore `users` and `contacts`
collections, and the per-caller express-session slot) as an explicit
`ServerState`, and each external SDK call as a state transition that can
also fail.  Failures of the external services (network errors, store
unavailable, ...) are injected through a `Faults` record: a `true` field
makes the corresponding SDK call throw, exactly where the JS `await`
would reject.  JS exception control flow (`try`/`catch`) becomes
explicit propagation of the first error, with the state accumulated so
far kept (JS does not roll back earlier awaited effects).

Each handler returns the HTTP `Response` it sends plus the final state.
`res.json(x)` with no explicit status is status 200.

A `calls` trace in the state records every external SDK call made, in
order, so that "performs no call to the Identity Provider / Profile
Store / Session Store" and "sets the credential *before* loading the
profile" are provable statements.
-/

/-- A Firebase Auth account: provider-issued uid plus the stored
credential (`createUser`/`updateUser` password). -/
structure Account where
  uid : String
  password : String
deriving Repr, DecidableEq

/-- A Firestore `users/{uid}` document, as written by `/register`:
`{username, isAdmin, createdAt, lastLogin}`.  Timestamps are modelled as
`Option Nat` (`none` = JS `null`), server-assigned from the state clock. -/
structure UserDoc where
  username : String
  isAdmin : Bool
  createdAt : Option Nat
  lastLogin : Option Nat
deriving Repr, DecidableEq

/-- A Firestore `contacts` document, as written by `/contact`. -/
structure ContactMsg where
  name : String
  email : String
  message : String
  receivedAt : Nat
deriving Repr, DecidableEq

/-- The express-session record set by `/login`:
`req.session.uid` and `req.session.isAdmin` (the admin flag cached at
login time). -/
structure SessionData where
  uid : String
  isAdmin : Bool
deriving Repr, DecidableEq

/-- The external world as one caller sees it: Firebase Auth accounts
keyed by email, the Firestore `users` collection keyed by uid, the
`contacts` collection, this caller's session slot, a server clock `now`
(source of `FieldValue.serverTimestamp()`), a uid allocator, and the
trace of external SDK calls made so far. -/
structure ServerState where
  authUsers : List (String × Account)
  users : List (String × UserDoc)
  contacts : List ContactMsg
  session : Option SessionData
  now : Nat
  nextUid : Nat
  calls : List String
deriving Repr, DecidableEq

/-- Fault injection: a `true` field makes the corresponding external
call reject, exactly where the JS `await` would throw. -/
structure Faults where
  authCreateUser : Bool
  authGetUserByEmail : Bool
  authUpdateUser : Bool
  usersGet : Bool
  usersSet : Bool
  usersUpdate : Bool
  contactsAdd : Bool
  sessionDestroy : Bool
deriving Repr, DecidableEq

/-- All external services healthy. -/
def noFaults : Faults := ⟨false, false, false, false, false, false, false, false⟩

/-- The JS error distinctions the handlers actually test:
`error.code === 'auth/email-already-exists'` versus everything else. -/
inductive JsError where
  | emailAlreadyExists
  | generic
deriving Repr, DecidableEq

/-- Response bodies the handlers send (the JSON shapes of server.js). -/
inductive Body where
  | err (msg : String)
  | ok
  | notLoggedIn
  | loggedInAs (username : String) (isAdmin : Bool)
deriving Repr, DecidableEq

/-- An HTTP response: status code plus JSON body. -/
structure Response where
  status : Nat
  body : Body
deriving Repr, DecidableEq

/-- Result of an awaited external call: a value plus the new state, or a
thrown error plus the state at the throw (earlier effects kept). -/
inductive ExtResult (α : Type) where
  | ok (val : α) (s : ServerState)
  | error (e : JsError) (s : ServerState)
deriving DecidableEq

/-- First-match association-list lookup (document / account by key). -/
def lookupKey {β : Type} (l : List (String × β)) (k : String) : Option β :=
  match l with
  | [] => none
  | (k2, v) :: t => if k = k2 then some v else lookupKey t k

/-- Append an entry to the external-call trace. -/
def recordCall (s : ServerState) (c : String) : ServerState :=
  { s with calls := s.calls ++ [c] }

/-- server.js line 89: the deterministic username → provider login
identifier mapping. -/
def emailFor (username : String) : String := username ++ "@aicloude.com"

/-- `admin.auth().createUser({email, password, ...})` (line 88):
rejects with code `auth/email-already-exists` if the email is taken,
otherwise creates the account and returns the new uid. -/
def authCreateUser (f : Faults) (s : ServerState) (email pw : String) : ExtResult String :=
  let s := recordCall s "auth.createUser"
  if f.authCreateUser then .error .generic s
  else if (lookupKey s.authUsers email).isSome then .error .emailAlreadyExists s
  else
    let uid := "uid" ++ toString s.nextUid
    .ok uid { s with authUsers := (email, ⟨uid, pw⟩) :: s.authUsers,
                     nextUid := s.nextUid + 1 }

/-- `admin.auth().getUserByEmail(email)` (line 121): rejects if no
account has that email. -/
def authGetUserByEmail (f : Faults) (s : ServerState) (email : String) : ExtResult Account :=
  let s := recordCall s "auth.getUserByEmail"
  if f.authGetUserByEmail then .error .generic s
  else
    match lookupKey s.authUsers email with
    | some a => .ok a s
    | none => .error .generic s

/-- Overwrite the stored credential of every account with the given uid. -/
def setPasswordByUid (l : List (String × Account)) (uid pw : String) :
    List (String × Account) :=
  l.map (fun p => if p.2.uid = uid then (p.1, { p.2 with password := pw }) else p)

/-- Does some account carry this uid? -/
def hasUid (l : List (String × Account)) (uid : String) : Bool :=
  l.any (fun p => p.2.uid = uid)

/-- `admin.auth().updateUser(uid, {password})` (line 122): re-sets the
stored credential; rejects if no account has that uid. -/
def authUpdateUser (f : Faults) (s : ServerState) (uid pw : String) : ExtResult Unit :=
  let s := recordCall s "auth.updateUser"
  if f.authUpdateUser then .error .generic s
  else if hasUid s.authUsers uid then
    .ok () { s with authUsers := setPasswordByUid s.authUsers uid pw }
  else .error .generic s

/-- `db.collection('users').doc(uid).get()` (lines 124, 150): a missing
document is not an error — it returns a snapshot with `exists = false`,
modelled as `none`. -/
def usersGet (f : Faults) (s : ServerState) (uid : String) : ExtResult (Option UserDoc) :=
  let s := recordCall s "users.get"
  if f.usersGet then .error .generic s
  else .ok (lookupKey s.users uid) s

/-- `db.collection('users').doc(uid).set(doc)` (line 94): create or
overwrite the document. -/
def usersSet (f : Faults) (s : ServerState) (uid : String) (doc : UserDoc) : ExtResult Unit :=
  let s := recordCall s "users.set"
  if f.usersSet then .error .generic s
  else .ok () { s with users := (uid, doc) :: s.users.filter (fun p => p.1 ≠ uid) }

/-- Set `lastLogin` on every document with the given uid key. -/
def setLastLogin (l : List (String × UserDoc)) (uid : String) (t : Nat) :
    List (String × UserDoc) :=
  l.map (fun p => if p.1 = uid then (p.1, { p.2 with lastLogin := some t }) else p)

/-- `db.collection('users').doc(uid).update({lastLogin: serverTimestamp()})`
(line 131): Firestore `update` rejects if the document does not exist. -/
def usersUpdateLastLogin (f : Faults) (s : ServerState) (uid : String) : ExtResult Unit :=
  let s := recordCall s "users.update"
  if f.usersUpdate then .error .generic s
  else if (lookupKey s.users uid).isSome then
    .ok () { s with users := setLastLogin s.users uid s.now }
  else .error .generic s

/-- `db.collection('contacts').add({..., receivedAt: serverTimestamp()})`
(line 182): append one document. -/
def contactsAdd (f : Faults) (s : ServerState) (c : ContactMsg) : ExtResult Unit :=
  let s := recordCall s "contacts.add"
  if f.contactsAdd then .error .generic s
  else .ok () { s with contacts := s.contacts ++ [c] }

/-- JS truthiness of a request body field: `!x` is true when the field
is absent (`undefined`) or the empty string. -/
def blankField (x : Option String) : Bool := (x.getD "") = ""

/-- POST /register (lines 80-110).  Validate, `createUser`, then create
the profile document; the catch block maps `auth/email-already-exists`
to "Username already exists" and everything else to "Registration
failed", always with status 400. -/
def registerHandler (username password : Option String) (f : Faults) (s : ServerState) :
    Response × ServerState :=
  if blankField username || blankField password then
    (⟨400, .err "Username and password required"⟩, s)
  else
    let u := username.getD ""
    let p := password.getD ""
    match authCreateUser f s (emailFor u) p with
    | .error e s1 =>
        (⟨400, .err (if e = .emailAlreadyExists then "Username already exists"
                     else "Registration failed")⟩, s1)
    | .ok uid s1 =>
        match usersSet f s1 uid ⟨u, false, some s1.now, none⟩ with
        | .error _ s2 => (⟨400, .err "Registration failed"⟩, s2)
        | .ok _ s2 => (⟨200, .ok⟩, s2)

/-- POST /login (lines 113-143).  Validate, `getUserByEmail`,
`updateUser` (re-set the credential to the supplied password — no
verification), fetch the profile document (throwing if absent), update
`lastLogin`, then set the session.  Every thrown error is caught and
answered with 401 "Invalid credentials". -/
def loginHandler (username password : Option String) (f : Faults) (s : ServerState) :
    Response × ServerState :=
  if blankField username || blankField password then
    (⟨400, .err "Credentials required"⟩, s)
  else
    let u := username.getD ""
    let p := password.getD ""
    match authGetUserByEmail f s (emailFor u) with
    | .error _ s1 => (⟨401, .err "Invalid credentials"⟩, s1)
    | .ok acct s1 =>
        match authUpdateUser f s1 acct.uid p with
        | .error _ s2 => (⟨401, .err "Invalid credentials"⟩, s2)
        | .ok _ s2 =>
            match usersGet f s2 acct.uid with
            | .error _ s3 => (⟨401, .err "Invalid credentials"⟩, s3)
            | .ok none s3 => (⟨401, .err "Invalid credentials"⟩, s3)
            | .ok (some doc) s3 =>
                match usersUpdateLastLogin f s3 acct.uid with
                | .error _ s4 => (⟨401, .err "Invalid credentials"⟩, s4)
                | .ok _ s4 =>
                    (⟨200, .ok⟩, { s4 with session := some ⟨acct.uid, doc.isAdmin⟩ })

/-- GET /api/user (lines 146-168).  No session → `{loggedIn:false}`;
session whose profile document is missing → destroy the session and
`{loggedIn:false}`; otherwise answer with the username and admin flag
read fresh from the document; a store failure → 500 `{loggedIn:false}`. -/
def whoamiHandler (f : Faults) (s : ServerState) : Response × ServerState :=
  match s.session with
  | none => (⟨200, .notLoggedIn⟩, s)
  | some sess =>
      match usersGet f s sess.uid with
      | .error _ s1 => (⟨500, .notLoggedIn⟩, s1)
      | .ok none s1 => (⟨200, .notLoggedIn⟩, { s1 with session := none })
      | .ok (some doc) s1 => (⟨200, .loggedInAs doc.username doc.isAdmin⟩, s1)

/-- POST /logout (lines 197-206).  `req.session.destroy(cb)`: on a store
error answer 500 "Logout failed", otherwise clear the cookie and answer
`{success:true}`. -/
def logoutHandler (f : Faults) (s : ServerState) : Response × ServerState :=
  if f.sessionDestroy then (⟨500, .err "Logout failed"⟩, s)
  else (⟨200, .ok⟩, { s with session := none })

/-- POST /contact (lines 174-194).  All three fields required, else 400;
append one contact document with a server-assigned timestamp; a store
failure → 500 "Message submission failed". -/
def contactHandler (name email message : Option String) (f : Faults) (s : ServerState) :
    Response × ServerState :=
  if blankField name || blankField email || blankField message then
    (⟨400, .err "All fields required"⟩, s)
  else
    match contactsAdd f s ⟨name.getD "", email.getD "", message.getD "", s.now⟩ with
    | .error _ s1 => (⟨500, .err "Message submission failed"⟩, s1)
    | .ok _ s1 => (⟨200, .ok⟩, s1)

/-- The `serviceAccount` object built from environment variables
(lines 7-19).  A field is `none` when the environment variable is
absent; JS `!serviceAccount[field]` is also true for the empty string. -/
structure ServiceAccount where
  type : Option String
  project_id : Option String
  private_key_id : Option String
  private_key : Option String
  client_email : Option String
  client_id : Option String
  auth_uri : Option String
  token_uri : Option String
  auth_provider_x509_cert_url : Option String
  client_x509_cert_url : Option String
  universe_domain : Option String
deriving Repr, DecidableEq

/-- Lines 26-29: the fields the startup loop actually checks.  Note the
list stops at `token_uri`: the two cert URLs and `universe_domain` are
part of the bundle (lines 16-18) but not of this list. -/
def requiredServiceAccountFields : List String :=
  ["type", "project_id", "private_key_id", "private_key",
   "client_email", "client_id", "auth_uri", "token_uri"]

/-- `serviceAccount[field]` lookup by field name string. -/
def saField (sa : ServiceAccount) (name : String) : Option String :=
  if name = "type" then sa.type
  else if name = "project_id" then sa.project_id
  else if name = "private_key_id" then sa.private_key_id
  else if name = "private_key" then sa.private_key
  else if name = "client_email" then sa.client_email
  else if name = "client_id" then sa.client_id
  else if name = "auth_uri" then sa.auth_uri
  else if name = "token_uri" then sa.token_uri
  else if name = "auth_provider_x509_cert_url" then sa.auth_provider_x509_cert_url
  else if name = "client_x509_cert_url" then sa.client_x509_cert_url
  else if name = "universe_domain" then sa.universe_domain
  else none

/-- `!serviceAccount[field]` (line 32): the field is absent or empty. -/
def fieldFalsy (sa : ServiceAccount) (name : String) : Bool :=
  (saField sa name).getD "" = ""

/-- Lines 31-36: the startup validation loop; `true` means some checked
field is missing and the process calls `process.exit(1)` (fails fast). -/
def startupExits (sa : ServiceAccount) : Bool :=
  requiredServiceAccountFields.any (fieldFalsy sa)

/-! ## Sample states for concrete evaluation -/

/-- A world with one registered account "alice" (uid "u1", stored
password "oldpw") whose profile document exists, and no live session. -/
def wBase : ServerState :=
  ⟨[("alice@aicloude.com", ⟨"u1", "oldpw"⟩)],
   [("u1", ⟨"alice", false, some 5, none⟩)],
   [], none, 10, 2, []⟩

/-- wBase with a live session for "u1" whose cached admin flag (true)
disagrees with the profile document (false). -/
def wCached : ServerState := { wBase with session := some ⟨"u1", true⟩ }

/-- wBase with a live session for "u1" but the profile document deleted
out-of-band. -/
def wOrphan : ServerState := { wBase with users := [], session := some ⟨"u1", false⟩ }

/-- An empty world: no accounts, no documents, no session. -/
def w0 : ServerState := ⟨[], [], [], none, 0, 1, []⟩

/-- wBase with the profile document missing but the Identity Provider
account still present. -/
def wNoProfile : ServerState := { wBase with users := [] }

/-- A credential bundle with all eight checked fields present but the
two cert URLs and the universe domain absent. -/
def saNoUniverse : ServiceAccount :=
  ⟨some "service_account", some "proj", some "kid", some "key",
   some "mail@proj.iam", some "cid", some "authuri", some "tokenuri",
   none, none, none⟩

/-! ## Helper lemmas -/

@[simp]
theorem recordCall_authUsers (s : ServerState) (c : String) :
    (recordCall s c).authUsers = s.authUsers := rfl

@[simp]
theorem recordCall_users (s : ServerState) (c : String) :
    (recordCall s c).users = s.users := rfl

@[simp]
theorem recordCall_contacts (s : ServerState) (c : String) :
    (recordCall s c).contacts = s.contacts := rfl

@[simp]
theorem recordCall_session (s : ServerState) (c : String) :
    (recordCall s c).session = s.session := rfl

@[simp]
theorem recordCall_now (s : ServerState) (c : String) :
    (recordCall s c).now = s.now := rfl

@[simp]
theorem recordCall_calls (s : ServerState) (c : String) :
    (recordCall s c).calls = s.calls ++ [c] := rfl

theorem hasUid_of_lookup {l : List (String × Account)} {e : String} {a : Account}
    (h : lookupKey l e = some a) : hasUid l a.uid = true := by
  induction l with
  | nil => simp [lookupKey] at h
  | cons hd tl ih =>
      rw [lookupKey] at h
      by_cases hk : e = hd.1
      · rw [if_pos hk] at h
        have h2 : hd.2 = a := by
          exact Option.some.inj h
        subst h2
        simp [hasUid]
      · rw [if_neg hk] at h
        have h2 := ih h
        simp [hasUid] at h2 ⊢
        tauto

theorem lookup_setPasswordByUid {l : List (String × Account)} {e : String} {a : Account}
    (pw : String) (h : lookupKey l e = some a) :
    lookupKey (setPasswordByUid l a.uid pw) e = some { a with password := pw } := by
  induction l with
  | nil => simp [lookupKey] at h
  | cons hd tl ih =>
      rw [lookupKey] at h
      rw [setPasswordByUid, List.map_cons]
      by_cases hu : hd.2.uid = a.uid
      · rw [if_pos hu]
        rw [lookupKey]
        by_cases hk : e = hd.1
        · rw [if_pos hk] at h
          have h2 : hd.2 = a := Option.some.inj h
          subst h2
          simp [hk]
        · rw [if_neg hk] at h
          simp only [if_neg hk]
          exact ih h
      · rw [if_neg hu]
        rw [lookupKey]
        by_cases hk : e = hd.1
        · rw [if_pos hk] at h
          have h2 : hd.2 = a := Option.some.inj h
          exact absurd (by rw [h2]) hu
        · rw [if_neg hk] at h
          simp only [if_neg hk]
          exact ih h

/-! ## Claims -/

/-- C1: a Login call with non-empty username and password whose login
identifier resolves to an existing Identity Provider account sets that
account's stored credential to the supplied password (reset, not
verify) before loading the profile and creating the session; the
hypotheses never mention the previously stored password, so any caller
with a valid username and any non-empty password is authenticated. -/
theorem login_resets_credential (username password : Option String)
    (s : ServerState) (a : Account) (doc : UserDoc)
    (hbu : blankField username = false) (hbp : blankField password = false)
    (ha : lookupKey s.authUsers (emailFor (username.getD "")) = some a)
    (hdoc : lookupKey s.users a.uid = some doc) :
    (loginHandler username password noFaults s).1 = ⟨200, .ok⟩ ∧
    ((loginHandler username password noFaults s).2).session = some ⟨a.uid, doc.isAdmin⟩ ∧
    lookupKey ((loginHandler username password noFaults s).2).authUsers
        (emailFor (username.getD "")) = some { a with password := password.getD "" } ∧
    ((loginHandler username password noFaults s).2).calls =
      s.calls ++ ["auth.getUserByEmail", "auth.updateUser", "users.get", "users.update"] := by
  have hhas := hasUid_of_lookup ha
  have hset := lookup_setPasswordByUid (password.getD "") ha
  simp [loginHandler, authGetUserByEmail, authUpdateUser, usersGet, usersUpdateLastLogin,
        noFaults, hbu, hbp, ha, hdoc, hhas, hset, recordCall]

/-- C1 witness: logging in as "alice" with the fresh password "newpw"
(not the stored "oldpw") succeeds, creates the session, and re-sets the
stored credential to "newpw". -/
theorem login_resets_credential_w :
    (loginHandler (some "alice") (some "newpw") noFaults wBase).1 = ⟨200, .ok⟩ ∧
    ((loginHandler (some "alice") (some "newpw") noFaults wBase).2).session =
      some ⟨"u1", false⟩ ∧
    lookupKey ((loginHandler (some "alice") (some "newpw") noFaults wBase).2).authUsers
        (emailFor "alice") = some ⟨"u1", "newpw"⟩ ∧
    ((loginHandler (some "alice") (some "newpw") noFaults wBase).2).calls =
      ["auth.getUserByEmail", "auth.updateUser", "users.get", "users.update"] :=
  login_resets_credential (some "alice") (some "newpw") wBase
    ⟨"u1", "oldpw"⟩ ⟨"alice", false, some 5, none⟩
    (by decide) (by decide) (by decide) (by decide)

/-! ## Inversion lemmas for the external calls -/

theorem authGetUserByEmail_ok_inv {f : Faults} {s : ServerState} {email : String}
    {a : Account} {s1 : ServerState}
    (h : authGetUserByEmail f s email = .ok a s1) :
    f.authGetUserByEmail = false ∧ lookupKey s.authUsers email = some a ∧
    s1.authUsers = s.authUsers ∧ s1.users = s.users ∧ s1.session = s.session ∧
    s1.now = s.now ∧ s1.calls = s.calls ++ ["auth.getUserByEmail"] := by
  unfold authGetUserByEmail at h
  by_cases hf : f.authGetUserByEmail
  · simp only [hf, if_true, recordCall_authUsers, recordCall_users, recordCall_now] at h
    exact absurd h (by simp)
  · simp only [hf, Bool.false_eq_true, if_false, recordCall_authUsers, recordCall_users, recordCall_now] at h
    cases hl : lookupKey s.authUsers email with
    | some b =>
        rw [hl] at h
        injection h with h1 h2
        subst h1
        subst h2
        simp [recordCall, hl, hf]
    | none =>
        rw [hl] at h
        exact absurd h (by simp)

theorem authGetUserByEmail_err_inv {f : Faults} {s : ServerState} {email : String}
    {e : JsError} {s1 : ServerState}
    (h : authGetUserByEmail f s email = .error e s1) :
    (f.authGetUserByEmail = true ∨ lookupKey s.authUsers email = none) ∧
    s1.authUsers = s.authUsers ∧ s1.users = s.users ∧ s1.session = s.session ∧
    s1.now = s.now ∧ s1.calls = s.calls ++ ["auth.getUserByEmail"] := by
  unfold authGetUserByEmail at h
  by_cases hf : f.authGetUserByEmail
  · simp only [hf, if_true, recordCall_authUsers, recordCall_users, recordCall_now] at h
    injection h with h1 h2
    subst h2
    simp [recordCall, hf]
  · simp only [hf, Bool.false_eq_true, if_false, recordCall_authUsers, recordCall_users, recordCall_now] at h
    cases hl : lookupKey s.authUsers email with
    | some b =>
        rw [hl] at h
        exact absurd h (by simp)
    | none =>
        rw [hl] at h
        injection h with h1 h2
        subst h2
        simp [recordCall, hl]

theorem authUpdateUser_ok_inv {f : Faults} {s : ServerState} {uid pw : String}
    {u : Unit} {s1 : ServerState}
    (h : authUpdateUser f s uid pw = .ok u s1) :
    f.authUpdateUser = false ∧ hasUid s.authUsers uid = true ∧
    s1.authUsers = setPasswordByUid s.authUsers uid pw ∧
    s1.users = s.users ∧ s1.session = s.session ∧
    s1.now = s.now ∧ s1.calls = s.calls ++ ["auth.updateUser"] := by
  unfold authUpdateUser at h
  by_cases hf : f.authUpdateUser
  · simp only [hf, if_true, recordCall_authUsers, recordCall_users, recordCall_now] at h
    exact absurd h (by simp)
  · simp only [hf, Bool.false_eq_true, if_false, recordCall_authUsers, recordCall_users, recordCall_now] at h
    by_cases hu : hasUid s.authUsers uid
    · simp only [hu, if_true] at h
      injection h with h1 h2
      subst h2
      simp [recordCall, hf, hu]
    · simp only [hu, Bool.false_eq_true, if_false] at h
      exact absurd h (by simp)

theorem authUpdateUser_err_inv {f : Faults} {s : ServerState} {uid pw : String}
    {e : JsError} {s1 : ServerState}
    (h : authUpdateUser f s uid pw = .error e s1) :
    s1.authUsers = s.authUsers ∧ s1.users = s.users ∧ s1.session = s.session ∧
    s1.now = s.now ∧ s1.calls = s.calls ++ ["auth.updateUser"] := by
  unfold authUpdateUser at h
  by_cases hf : f.authUpdateUser
  · simp only [hf, if_true, recordCall_authUsers, recordCall_users, recordCall_now] at h
    injection h with h1 h2
    subst h2
    simp [recordCall]
  · simp only [hf, Bool.false_eq_true, if_false, recordCall_authUsers, recordCall_users, recordCall_now] at h
    by_cases hu : hasUid s.authUsers uid
    · simp only [hu, if_true] at h
      exact absurd h (by simp)
    · simp only [hu, Bool.false_eq_true, if_false] at h
      injection h with h1 h2
      subst h2
      simp [recordCall]

theorem usersGet_ok_inv {f : Faults} {s : ServerState} {uid : String}
    {v : Option UserDoc} {s1 : ServerState}
    (h : usersGet f s uid = .ok v s1) :
    f.usersGet = false ∧ v = lookupKey s.users uid ∧
    s1.authUsers = s.authUsers ∧ s1.users = s.users ∧ s1.session = s.session ∧
    s1.now = s.now ∧ s1.calls = s.calls ++ ["users.get"] := by
  unfold usersGet at h
  by_cases hf : f.usersGet
  · simp only [hf, if_true, recordCall_authUsers, recordCall_users, recordCall_now] at h
    exact absurd h (by simp)
  · simp only [hf, Bool.false_eq_true, if_false, recordCall_authUsers, recordCall_users, recordCall_now] at h
    injection h with h1 h2
    subst h2
    simp [recordCall, hf, h1.symm]

theorem usersGet_err_inv {f : Faults} {s : ServerState} {uid : String}
    {e : JsError} {s1 : ServerState}
    (h : usersGet f s uid = .error e s1) :
    f.usersGet = true ∧
    s1.authUsers = s.authUsers ∧ s1.users = s.users ∧ s1.session = s.session ∧
    s1.now = s.now ∧ s1.calls = s.calls ++ ["users.get"] := by
  unfold usersGet at h
  by_cases hf : f.usersGet
  · simp only [hf, if_true, recordCall_authUsers, recordCall_users, recordCall_now] at h
    injection h with h1 h2
    subst h2
    simp [recordCall, hf]
  · simp only [hf, Bool.false_eq_true, if_false, recordCall_authUsers, recordCall_users, recordCall_now] at h
    exact absurd h (by simp)

theorem usersUpdateLastLogin_ok_inv {f : Faults} {s : ServerState} {uid : String}
    {u : Unit} {s1 : ServerState}
    (h : usersUpdateLastLogin f s uid = .ok u s1) :
    f.usersUpdate = false ∧ (lookupKey s.users uid).isSome = true ∧
    s1.authUsers = s.authUsers ∧ s1.users = setLastLogin s.users uid s.now ∧
    s1.session = s.session ∧ s1.now = s.now ∧
    s1.calls = s.calls ++ ["users.update"] := by
  unfold usersUpdateLastLogin at h
  by_cases hf : f.usersUpdate
  · simp only [hf, if_true, recordCall_authUsers, recordCall_users, recordCall_now] at h
    exact absurd h (by simp)
  · simp only [hf, Bool.false_eq_true, if_false, recordCall_authUsers, recordCall_users, recordCall_now] at h
    by_cases hu : (lookupKey s.users uid).isSome
    · simp only [hu, if_true] at h
      injection h with h1 h2
      subst h2
      simp [recordCall, hf, hu]
    · simp only [hu, Bool.false_eq_true, if_false] at h
      exact absurd h (by simp)

theorem usersUpdateLastLogin_err_inv {f : Faults} {s : ServerState} {uid : String}
    {e : JsError} {s1 : ServerState}
    (h : usersUpdateLastLogin f s uid = .error e s1) :
    s1.authUsers = s.authUsers ∧ s1.users = s.users ∧ s1.session = s.session ∧
    s1.now = s.now ∧ s1.calls = s.calls ++ ["users.update"] := by
  unfold usersUpdateLastLogin at h
  by_cases hf : f.usersUpdate
  · simp only [hf, if_true, recordCall_authUsers, recordCall_users, recordCall_now] at h
    injection h with h1 h2
    subst h2
    simp [recordCall]
  · simp only [hf, Bool.false_eq_true, if_false, recordCall_authUsers, recordCall_users, recordCall_now] at h
    by_cases hu : (lookupKey s.users uid).isSome
    · simp only [hu, if_true] at h
      exact absurd h (by simp)
    · simp only [hu, Bool.false_eq_true, if_false] at h
      injection h with h1 h2
      subst h2
      simp [recordCall]

/-- Case analysis of POST /login with non-empty credentials: either it
answers `{success:true}` having found the account and its profile and
set the session, or it answers 401 "Invalid credentials" with the
caller's session slot untouched. -/
theorem loginHandler_outcome (username password : Option String) (f : Faults) (s : ServerState)
    (hbu : blankField username = false) (hbp : blankField password = false) :
    ((loginHandler username password f s).1 = ⟨200, .ok⟩ ∧
      ∃ a doc, lookupKey s.authUsers (emailFor (username.getD "")) = some a ∧
        f.authGetUserByEmail = false ∧ f.usersGet = false ∧
        lookupKey s.users a.uid = some doc ∧
        ((loginHandler username password f s).2).session = some ⟨a.uid, doc.isAdmin⟩) ∨
    ((loginHandler username password f s).1 = ⟨401, .err "Invalid credentials"⟩ ∧
      ((loginHandler username password f s).2).session = s.session) := by
  unfold loginHandler
  simp only [hbu, hbp, Bool.or_self, Bool.false_eq_true, if_false]
  cases hg : authGetUserByEmail f s (emailFor (username.getD "")) with
  | error e s1 =>
      obtain ⟨hd, hAU, hU, hS, hN, hC⟩ := authGetUserByEmail_err_inv hg
      exact Or.inr ⟨rfl, hS⟩
  | ok a s1 =>
      dsimp only
      obtain ⟨hgf, hga, hAU1, hU1, hS1, hN1, hC1⟩ := authGetUserByEmail_ok_inv hg
      cases hupd : authUpdateUser f s1 a.uid (password.getD "") with
      | error e s2 =>
          obtain ⟨hAU2, hU2, hS2, hN2, hC2⟩ := authUpdateUser_err_inv hupd
          exact Or.inr ⟨rfl, by rw [hS2, hS1]⟩
      | ok u s2 =>
          dsimp only
          obtain ⟨huf, huh, hAU2, hU2, hS2, hN2, hC2⟩ := authUpdateUser_ok_inv hupd
          cases hget : usersGet f s2 a.uid with
          | error e s3 =>
              obtain ⟨hgf3, hAU3, hU3, hS3, hN3, hC3⟩ := usersGet_err_inv hget
              exact Or.inr ⟨rfl, by rw [hS3, hS2, hS1]⟩
          | ok v s3 =>
              obtain ⟨hgf3, hv, hAU3, hU3, hS3, hN3, hC3⟩ := usersGet_ok_inv hget
              cases v with
              | none => exact Or.inr ⟨rfl, by rw [hS3, hS2, hS1]⟩
              | some doc =>
                  dsimp only
                  cases hupd2 : usersUpdateLastLogin f s3 a.uid with
                  | error e s4 =>
                      obtain ⟨hAU4, hU4, hS4, hN4, hC4⟩ := usersUpdateLastLogin_err_inv hupd2
                      exact Or.inr ⟨rfl, by rw [hS4, hS3, hS2, hS1]⟩
                  | ok u2 s4 =>
                      refine Or.inl ⟨rfl, a, doc, hga, hgf, hgf3, ?_, rfl⟩
                      rw [hU2, hU1] at hv
                      exact hv.symm

/-- C2: when Login (with non-empty fields) fails at the account lookup,
at the profile fetch, or because the profile record is absent, the
caller gets the one opaque 401 "Invalid credentials" response whichever
step failed, and the caller's session slot is left exactly as it was
(no session created). -/
theorem login_failure_opaque (username password : Option String) (f : Faults) (s : ServerState)
    (hbu : blankField username = false) (hbp : blankField password = false)
    (hfail : f.authGetUserByEmail = true ∨
             lookupKey s.authUsers (emailFor (username.getD "")) = none ∨
             f.usersGet = true ∨
             (∀ a : Account, lookupKey s.authUsers (emailFor (username.getD "")) = some a →
                lookupKey s.users a.uid = none)) :
    (loginHandler username password f s).1 = ⟨401, .err "Invalid credentials"⟩ ∧
    ((loginHandler username password f s).2).session = s.session := by
  rcases loginHandler_outcome username password f s hbu hbp with
    ⟨h200, a, doc, hga, hgf, hgf3, hdoc, hsess⟩ | h
  · exfalso
    rcases hfail with h1 | h1 | h1 | h1
    · rw [hgf] at h1
      exact Bool.false_ne_true h1
    · rw [hga] at h1
      exact Option.noConfusion h1
    · rw [hgf3] at h1
      exact Bool.false_ne_true h1
    · have h2 := h1 a hga
      rw [hdoc] at h2
      exact Option.noConfusion h2
  · exact h

/-- C2 witness: Login("nobody","x") against a world that has only
"alice" yields 401 "Invalid credentials" and leaves the (empty) session
slot untouched. -/
theorem login_failure_opaque_w :
    (loginHandler (some "nobody") (some "x") noFaults wBase).1 =
      ⟨401, .err "Invalid credentials"⟩ ∧
    ((loginHandler (some "nobody") (some "x") noFaults wBase).2).session = wBase.session :=
  login_failure_opaque (some "nobody") (some "x") noFaults wBase (by decide) (by decide)
    (Or.inr (Or.inl (by decide)))

/-- C3: a Register or Login call in which either field is missing or
empty answers 400 with the respective validation message and returns
the state — including the external-call trace — unchanged: no call to
the Identity Provider, Profile Store, or Session Store is made. -/
theorem validation_no_external_calls (username password : Option String)
    (f : Faults) (s : ServerState)
    (hblank : blankField username = true ∨ blankField password = true) :
    registerHandler username password f s =
      (⟨400, .err "Username and password required"⟩, s) ∧
    loginHandler username password f s = (⟨400, .err "Credentials required"⟩, s) := by
  have hcond : (blankField username || blankField password) = true := by
    rcases hblank with h | h <;> simp [h]
  constructor
  · unfold registerHandler
    simp only [hcond, if_true]
  · unfold loginHandler
    simp only [hcond, if_true]

/-- C3 witness: Register and Login with an empty username return the
400 validation errors and leave the world untouched. -/
theorem validation_no_external_calls_w :
    registerHandler (some "") (some "pw") noFaults wBase =
      (⟨400, .err "Username and password required"⟩, wBase) ∧
    loginHandler (some "") (some "pw") noFaults wBase =
      (⟨400, .err "Credentials required"⟩, wBase) :=
  validation_no_external_calls (some "") (some "pw") noFaults wBase (Or.inl (by decide))

/-- C4: WhoAmI with a session whose profile document exists answers
with the username and admin flag read fresh from the document; the
cached admin flag in the session record is universally quantified and
absent from the answer, so a profile admin-flag change after login is
reflected without re-login. -/
theorem whoami_fresh_read (f : Faults) (s : ServerState) (uid : String)
    (cachedAdmin : Bool) (doc : UserDoc)
    (hsess : s.session = some ⟨uid, cachedAdmin⟩)
    (hf : f.usersGet = false)
    (hdoc : lookupKey s.users uid = some doc) :
    (whoamiHandler f s).1 = ⟨200, .loggedInAs doc.username doc.isAdmin⟩ := by
  unfold whoamiHandler
  rw [hsess]
  dsimp only
  simp [usersGet, hf, hdoc, recordCall]

/-- C4 witness: with the session's cached admin flag true but the
profile document saying false, WhoAmI answers false — the fresh value. -/
theorem whoami_fresh_read_w :
    (whoamiHandler noFaults wCached).1 = ⟨200, .loggedInAs "alice" false⟩ :=
  whoami_fresh_read noFaults wCached "u1" true ⟨"alice", false, some 5, none⟩
    (by decide) (by decide) (by decide)

/-- C5: WhoAmI with a session present but the referenced profile
document missing destroys the session (self-heal) and answers
`{loggedIn:false}`; a second WhoAmI on the resulting state — under any
fault pattern — also answers `{loggedIn:false}` with the state
unchanged. -/
theorem whoami_self_heal (f : Faults) (s : ServerState) (sess : SessionData)
    (hsess : s.session = some sess)
    (hf : f.usersGet = false)
    (hdoc : lookupKey s.users sess.uid = none) :
    (whoamiHandler f s).1 = ⟨200, .notLoggedIn⟩ ∧
    ((whoamiHandler f s).2).session = none ∧
    ∀ f2 : Faults, whoamiHandler f2 ((whoamiHandler f s).2) =
      (⟨200, .notLoggedIn⟩, (whoamiHandler f s).2) := by
  unfold whoamiHandler
  rw [hsess]
  dsimp only
  simp [usersGet, hf, hdoc, recordCall, whoamiHandler]

/-- C5 witness: a session whose profile was deleted out-of-band gets
`{loggedIn:false}`, the session is destroyed, and a repeat call still
gets `{loggedIn:false}`. -/
theorem whoami_self_heal_w :
    (whoamiHandler noFaults wOrphan).1 = ⟨200, .notLoggedIn⟩ ∧
    ((whoamiHandler noFaults wOrphan).2).session = none ∧
    ∀ f2 : Faults, whoamiHandler f2 ((whoamiHandler noFaults wOrphan).2) =
      (⟨200, .notLoggedIn⟩, (whoamiHandler noFaults wOrphan).2) :=
  whoami_self_heal noFaults wOrphan ⟨"u1", false⟩ (by decide) (by decide) (by decide)

/-- C6: Logout destroys the session record whenever the destroy
operation works, answering `{success:true}`, and a subsequent WhoAmI
with the same token answers `{loggedIn:false}` under any fault pattern;
it answers 500 "Logout failed" exactly when the destroy operation
itself errors. -/
theorem logout_destroys_session (f : Faults) (s : ServerState) :
    (f.sessionDestroy = false →
      logoutHandler f s = (⟨200, .ok⟩, { s with session := none }) ∧
      ∀ f2 : Faults, (whoamiHandler f2 (logoutHandler f s).2).1 = ⟨200, .notLoggedIn⟩) ∧
    (f.sessionDestroy = true →
      logoutHandler f s = (⟨500, .err "Logout failed"⟩, s)) := by
  constructor
  · intro h
    constructor
    · simp [logoutHandler, h]
    · intro f2
      simp [logoutHandler, whoamiHandler, h]
  · intro h
    simp [logoutHandler, h]

/-- C6 witness: logging out of a live session succeeds, clears the
session, and the next WhoAmI answers `{loggedIn:false}`. -/
theorem logout_destroys_session_w :
    logoutHandler noFaults wCached = (⟨200, .ok⟩, { wCached with session := none }) ∧
    (whoamiHandler noFaults (logoutHandler noFaults wCached).2).1 = ⟨200, .notLoggedIn⟩ :=
  ⟨((logout_destroys_session noFaults wCached).1 rfl).1,
   ((logout_destroys_session noFaults wCached).1 rfl).2 noFaults⟩

/-- C7: registering a fresh username succeeds; registering the same
username again answers 400 "Username already exists" (the provider
reports the identifier as taken) and leaves the Profile Record of the
first registration untouched; any other provider failure on the second
call answers the generic 400 "Registration failed". -/
theorem register_duplicate (username password password2 : Option String) (s : ServerState)
    (hbu : blankField username = false) (hbp : blankField password = false)
    (hbp2 : blankField password2 = false)
    (hfresh : lookupKey s.authUsers (emailFor (username.getD "")) = none) :
    (registerHandler username password noFaults s).1 = ⟨200, .ok⟩ ∧
    (registerHandler username password2 noFaults
        (registerHandler username password noFaults s).2).1 =
      ⟨400, .err "Username already exists"⟩ ∧
    ((registerHandler username password2 noFaults
        (registerHandler username password noFaults s).2).2).users =
      ((registerHandler username password noFaults s).2).users ∧
    (∀ f2 : Faults, f2.authCreateUser = true →
      (registerHandler username password2 f2
          (registerHandler username password noFaults s).2).1 =
        ⟨400, .err "Registration failed"⟩) := by
  refine ⟨?_, ?_, ?_, ?_⟩
  · simp [registerHandler, authCreateUser, usersSet, noFaults, hbu, hbp, hfresh, recordCall]
  · simp [registerHandler, authCreateUser, usersSet, noFaults, hbu, hbp, hbp2, hfresh,
          recordCall, lookupKey]
  · simp [registerHandler, authCreateUser, usersSet, noFaults, hbu, hbp, hbp2, hfresh,
          recordCall, lookupKey]
  · intro f2 hf2
    simp [registerHandler, authCreateUser, usersSet, noFaults, hbu, hbp, hbp2, hfresh,
          recordCall, hf2]

/-- C7 witness: registering "alice" twice against an empty world gives
success then "Username already exists", the profile collection is
unchanged by the second call, and a generic provider failure on the
second call gives "Registration failed". -/
theorem register_duplicate_w :
    (registerHandler (some "alice") (some "pw1") noFaults w0).1 = ⟨200, .ok⟩ ∧
    (registerHandler (some "alice") (some "pw2") noFaults
        (registerHandler (some "alice") (some "pw1") noFaults w0).2).1 =
      ⟨400, .err "Username already exists"⟩ ∧
    ((registerHandler (some "alice") (some "pw2") noFaults
        (registerHandler (some "alice") (some "pw1") noFaults w0).2).2).users =
      ((registerHandler (some "alice") (some "pw1") noFaults w0).2).users ∧
    (∀ f2 : Faults, f2.authCreateUser = true →
      (registerHandler (some "alice") (some "pw2") f2
          (registerHandler (some "alice") (some "pw1") noFaults w0).2).1 =
        ⟨400, .err "Registration failed"⟩) :=
  register_duplicate (some "alice") (some "pw1") (some "pw2") w0
    (by decide) (by decide) (by decide) (by decide)

/-- C8: when Login fails after the credential update — the profile
fetch errors, or the profile document is missing — the caller gets 401
"Invalid credentials" and no session is created, yet the Identity
Provider credential has already been set to the supplied password and
is not rolled back. -/
theorem login_error_keeps_credential (username password : Option String) (f : Faults)
    (s : ServerState) (a : Account)
    (hbu : blankField username = false) (hbp : blankField password = false)
    (hgf : f.authGetUserByEmail = false) (huf : f.authUpdateUser = false)
    (ha : lookupKey s.authUsers (emailFor (username.getD "")) = some a)
    (hfetch : f.usersGet = true ∨ lookupKey s.users a.uid = none) :
    (loginHandler username password f s).1 = ⟨401, .err "Invalid credentials"⟩ ∧
    ((loginHandler username password f s).2).session = s.session ∧
    lookupKey ((loginHandler username password f s).2).authUsers
        (emailFor (username.getD "")) = some { a with password := password.getD "" } := by
  have hhas := hasUid_of_lookup ha
  have hset := lookup_setPasswordByUid (password.getD "") ha
  by_cases hug : f.usersGet = true
  · simp [loginHandler, authGetUserByEmail, authUpdateUser, usersGet,
          hbu, hbp, hgf, huf, ha, hhas, hug, hset, recordCall]
  · have hug2 : f.usersGet = false := by
      simpa using hug
    rcases hfetch with h | h
    · exact absurd h hug
    · simp [loginHandler, authGetUserByEmail, authUpdateUser, usersGet,
            hbu, hbp, hgf, huf, ha, hhas, hug2, h, hset, recordCall]

/-- C8 witness: logging in as "alice" with a new password while her
profile document is missing answers 401 with no session, but her
stored credential has been overwritten with the new password. -/
theorem login_error_keeps_credential_w :
    (loginHandler (some "alice") (some "newpw") noFaults wNoProfile).1 =
      ⟨401, .err "Invalid credentials"⟩ ∧
    ((loginHandler (some "alice") (some "newpw") noFaults wNoProfile).2).session =
      wNoProfile.session ∧
    lookupKey ((loginHandler (some "alice") (some "newpw") noFaults wNoProfile).2).authUsers
        (emailFor "alice") = some ⟨"u1", "newpw"⟩ :=
  login_error_keeps_credential (some "alice") (some "newpw") noFaults wNoProfile
    ⟨"u1", "oldpw"⟩ (by decide) (by decide) (by decide) (by decide) (by decide)
    (Or.inr (by decide))

/-- C9 counterexample: a bundle missing `universe_domain` and both cert
URLs passes startup validation — the claim that the whole listed bundle
is validated with fail-fast on any absent field is false at this input. -/
theorem startup_skips_universe_domain :
    saNoUniverse.universe_domain = none ∧
    saNoUniverse.auth_provider_x509_cert_url = none ∧
    saNoUniverse.client_x509_cert_url = none ∧
    startupExits saNoUniverse = false := by decide

/-- C9 amended: startup validates exactly the eight fields `type`,
`project_id`, `private_key_id`, `private_key`, `client_email`,
`client_id`, `auth_uri`, `token_uri` — it exits iff one of those is
absent or empty; the two cert URLs and `universe_domain` are read into
the bundle but never validated. -/
theorem startup_validation_eight_fields (sa : ServiceAccount) :
    startupExits sa = true ↔
      (blankField sa.type = true ∨ blankField sa.project_id = true ∨
       blankField sa.private_key_id = true ∨ blankField sa.private_key = true ∨
       blankField sa.client_email = true ∨ blankField sa.client_id = true ∨
       blankField sa.auth_uri = true ∨ blankField sa.token_uri = true) := by
  simp [startupExits, requiredServiceAccountFields, fieldFalsy, saField, blankField]

/-- C10: SubmitContact with any of the three fields missing answers 400
"All fields required" with the world untouched; with all fields present
and a healthy store it appends exactly one contact message carrying the
server-assigned timestamp and answers `{success:true}`; a storage
failure answers 500 "Message submission failed" and appends nothing. -/
theorem contact_submission (name email message : Option String) (f : Faults)
    (s : ServerState) :
    ((blankField name = true ∨ blankField email = true ∨ blankField message = true) →
      contactHandler name email message f s = (⟨400, .err "All fields required"⟩, s)) ∧
    (blankField name = false → blankField email = false → blankField message = false →
      f.contactsAdd = false →
      (contactHandler name email message f s).1 = ⟨200, .ok⟩ ∧
      ((contactHandler name email message f s).2).contacts =
        s.contacts ++ [⟨name.getD "", email.getD "", message.getD "", s.now⟩]) ∧
    (blankField name = false → blankField email = false → blankField message = false →
      f.contactsAdd = true →
      (contactHandler name email message f s).1 = ⟨500, .err "Message submission failed"⟩ ∧
      ((contactHandler name email message f s).2).contacts = s.contacts) := by
  refine ⟨?_, ?_, ?_⟩
  · intro h
    have hcond : (blankField name || blankField email || blankField message) = true := by
      rcases h with h | h | h <;> simp [h]
    unfold contactHandler
    simp only [hcond, if_true]
  · intro h1 h2 h3 h4
    simp [contactHandler, contactsAdd, h1, h2, h3, h4, recordCall]
  · intro h1 h2 h3 h4
    simp [contactHandler, contactsAdd, h1, h2, h3, h4, recordCall]

/-- C10 witness: a full submission appends exactly one message with the
server clock as timestamp; a submission with a missing field is
rejected with the world untouched. -/
theorem contact_submission_w :
    (contactHandler (some "bob") (some "b@x.com") (some "hi") noFaults wBase).1 =
      ⟨200, .ok⟩ ∧
    ((contactHandler (some "bob") (some "b@x.com") (some "hi") noFaults wBase).2).contacts =
      wBase.contacts ++ [⟨"bob", "b@x.com", "hi", wBase.now⟩] :=
  (contact_submission (some "bob") (some "b@x.com") (some "hi") noFaults wBase).2.1
    (by decide) (by decide) (by decide) (by decide)
